import Mathlib

/-!
Verification of the Mingle relay server and client signalling logic.

This file is a shallow embedding of the session-synchronisation and WebRTC
signalling core of the Mingle repository:

* `src/src/mingle_server.ts` — the Socket.io relay: the `position`,
  `rtc-offer`, `rtc-answer`, `ice-candidate` and `disconnect` handlers
  registered inside `io.on('connection', ...)`.
* `src/public/js/mingle_client.js` — the client: the `position`,
  `rtc-offer`, `rtc-answer`, `ice-candidate` and `disconnectClient`
  socket handlers, `createPeerConnection`, and the lexicographic
  initiator tie-break `socket.id < data.id`.

JavaScript objects carried in messages are modelled as association lists of
string keys to a small JSON-like value type `JVal`; lookup is first-match,
and the object spread `{id: socket.id, ...data}` is modelled by appending
the stamped entry after the payload entries, so that payload keys shadow
the stamp exactly as spread semantics dictate.
-/

/-- JSON-like values carried in socket messages (strings, numbers, null and
nested objects). Floating-point subtleties are irrelevant to the routing
logic, so numbers are modelled as integers. -/
inductive JVal where
  | null : JVal
  | num : Int → JVal
  | str : String → JVal
  | obj : List (String × JVal) → JVal

/-- A message payload: a JavaScript object, as an association list. Lookup is
first-match-wins. -/
abbrev Payload := List (String × JVal)

/-- Remove every binding for key `k` (model of `delete obj[k]`). -/
def eraseKey (k : String) (l : List (String × JVal)) : List (String × JVal) :=
  l.filter (fun p => p.1 != k)

/-- JavaScript truthiness of a value (`undefined`/`null`, `0` and `""` are
falsy; objects are truthy). -/
def truthyVal : JVal → Bool
  | JVal.null => false
  | JVal.num n => n != 0
  | JVal.str s => s != ""
  | JVal.obj _ => true

/-- Truthiness of a possibly-absent field (`undefined` is falsy). -/
def jsTruthy : Option JVal → Bool
  | none => false
  | some v => truthyVal v

/-- Model of `a || b` for a possibly-absent left operand, as in
`data.tvTilt || 0`. -/
def jsOr (v : Option JVal) (d : JVal) : JVal :=
  match v with
  | some x => if truthyVal x then x else d
  | none => d

/-- Field access `v.k` on a JSON value: `undefined` (here `null`) unless `v`
is an object containing `k`. -/
def jvField (v : JVal) (k : String) : JVal :=
  match v with
  | JVal.obj l => (List.lookup k l).getD JVal.null
  | _ => JVal.null

/-!
## Server model — `src/src/mingle_server.ts`

The relay keeps no per-session data beyond the set of connected socket ids
(Socket.io's connection registry); in particular the `position` handler
stores nothing. Each handler returns the successor state together with the
message(s) it emits. A `Msg` records the event name, the list of session
ids the transport delivers it to, and the body object.
-/

/-- A message emitted by the relay: event name, the session ids it is
delivered to, and its body. -/
structure Msg where
  event : String
  targets : List String
  body : Payload

/-- Relay state: the ids of the currently connected sessions. The server
code keeps no other per-session state (no `lastTransform` is stored). -/
structure RelayState where
  sessions : List String

/-- Handler for a new connection: the socket joins the registry and
`io.emit('clientCount', io.engine.clientsCount)` goes to every session. -/
def onConnect (st : RelayState) (id : String) : RelayState × Msg :=
  let st' : RelayState := ⟨id :: st.sessions⟩
  (st', ⟨"clientCount", st'.sessions, [("count", JVal.num (Int.ofNat st'.sessions.length))]⟩)

/-- Handler for `socket.on('position', ...)`:
`io.emit('position', { id: socket.id, ...data })`. The broadcast goes to
every connected session, the sender included, and the body is the spread of
the raw payload over the id stamp (payload keys shadow the stamp). The
relay state is unchanged: nothing is validated or stored. -/
def onPosition (st : RelayState) (sender : String) (data : Payload) :
    RelayState × Msg :=
  (st, ⟨"position", st.sessions, data ++ [("id", JVal.str sender)]⟩)

/-- Directed delivery used by the three signalling handlers:
`socket.to(to).emit(ev, { from: socket.id, ... })`. Socket.io delivers a
room emit to every socket in room `to` except the sender, and each socket
is only ever in the room named by its own id, so the delivery set is `[to]`
when `to` is a connected session other than the sender and empty
otherwise. -/
def directedMsg (ev : String) (st : RelayState) (sender dest : String)
    (key : String) (v : JVal) : Msg :=
  ⟨ev, if dest ∈ st.sessions ∧ dest ≠ sender then [dest] else [],
   [("from", JVal.str sender), (key, v)]⟩

/-- Handler for `socket.on('rtc-offer', ...)`. -/
def onRtcOffer (st : RelayState) (sender dest : String) (offer : JVal) :
    RelayState × Msg :=
  (st, directedMsg "rtc-offer" st sender dest "offer" offer)

/-- Handler for `socket.on('rtc-answer', ...)`. -/
def onRtcAnswer (st : RelayState) (sender dest : String) (answer : JVal) :
    RelayState × Msg :=
  (st, directedMsg "rtc-answer" st sender dest "answer" answer)

/-- Handler for `socket.on('ice-candidate', ...)`. -/
def onIceCandidate (st : RelayState) (sender dest : String) (candidate : JVal) :
    RelayState × Msg :=
  (st, directedMsg "ice-candidate" st sender dest "candidate" candidate)

/-- Removal of a session from the registry. Socket ids are unique, so
removing by filtering is the map-delete the transport performs. -/
def removeSession (id : String) (l : List String) : List String :=
  l.filter (fun s => s != id)

/-- Handler for `socket.on('disconnect', ...)`:
`socket.broadcast.emit('disconnectClient', socket.id)` reaches every other
connected session, then `io.emit('clientCount', ...)` reaches the sessions
that remain. The transport fires `disconnect` exactly once per connected
socket; firing for an id no longer in the registry cannot occur and is
modelled as a structural no-op, which is what makes disconnect processing
idempotent. -/
def onDisconnect (st : RelayState) (id : String) : RelayState × List Msg :=
  if id ∈ st.sessions then
    let rest := removeSession id st.sessions
    (⟨rest⟩,
      [⟨"disconnectClient", rest, [("id", JVal.str id)]⟩,
       ⟨"clientCount", rest, [("count", JVal.num (Int.ofNat rest.length))]⟩])
  else
    (st, [])

/-!
## Client-side tie-break — `socket.id < data.id`

JavaScript `<` on strings is lexicographic comparison of the code units;
socket ids are ASCII, where this coincides with lexicographic comparison of
the characters, embedded here directly.
-/

/-- Lexicographic strict comparison on character lists, the semantics of the
JavaScript `<` operator on strings. -/
def jsLtChars : List Char → List Char → Bool
  | _, [] => false
  | [], _ :: _ => true
  | a :: as, b :: bs =>
    if a < b then true
    else if b < a then false
    else jsLtChars as bs

/-- The initiator tie-break of `mingle_client.js`: the side whose own id is
lexicographically lower sends the offer (`socket.id < data.id`). -/
def idLt (a b : String) : Bool :=
  jsLtChars a.data b.data

/-!
## Client model — `src/public/js/mingle_client.js`

The client keeps `peerConnections` (a map from remote socket id to an
`RTCPeerConnection`), `remotes` (a map from remote socket id to its avatar
entity, spectate-marker box and TV node) and, per remote, a dynamically
created `video-` element under `a-assets`. A peer connection is modelled by
the facts the handlers can observe: which outgoing tracks were attached,
whether the local and remote descriptions have been set, and the ICE
candidates applied so far. There is no pending-candidate buffer anywhere in
the client source, so the model has none.
-/

/-- Observable state of one `RTCPeerConnection` as driven by the client
handlers. `applied` lists the ICE candidates accepted by
`addIceCandidate`, in order; per the WebRTC specification
`addIceCandidate` rejects while no remote description is set, and the
client only logs that rejection, so such candidates are dropped. -/
structure PCState where
  outTracks : List String
  localDescSet : Bool
  remoteDescSet : Bool
  applied : List Nat
deriving DecidableEq

/-- Outcome of the local `getUserMedia` promise (`localStreamPromise`):
either a stream carrying the listed tracks, or a rejection (camera or
microphone unavailable). -/
inductive MediaResult where
  | ok (tracks : List String) : MediaResult
  | err : MediaResult

/-- The `new RTCPeerConnection(...)` of `createPeerConnection`, after the
`try { await localStreamPromise; stream.getTracks().forEach(addTrack) }
catch { log }` block: on media failure the exception is caught and the
connection simply has no outgoing tracks. -/
def mkPC (media : MediaResult) : PCState :=
  { outTracks := match media with
      | MediaResult.ok ts => ts
      | MediaResult.err => []
    localDescSet := false
    remoteDescSet := false
    applied := [] }

/-- State of one remote avatar mirror (`remotes[id]` plus the DOM nodes the
`position` handler drives on it). -/
structure Remote where
  pos : Option JVal
  rotY : Option JVal
  tilt : Option JVal
  camVisible : Bool

/-- The freshly created remote avatar entry before the transform fields are
applied. -/
def newRemote : Remote :=
  { pos := none, rotY := none, tilt := none, camVisible := false }

/-- State of one client: `peerConnections`, `remotes` and the ids that have a
`video-` element in `a-assets`. -/
structure ClientState where
  pcs : List (String × PCState)
  remotes : List (String × Remote)
  videoEls : List String

/-- The client with no peers known yet. -/
def emptyClient : ClientState :=
  { pcs := [], remotes := [], videoEls := [] }

/-- Observable side effects of a client handler: signalling messages sent
back through the socket, and `pc.close()` calls. -/
inductive ClientOut where
  | rtcOffer (dest : String) : ClientOut
  | rtcAnswer (dest : String) : ClientOut
  | iceCandidate (dest : String) : ClientOut
  | closePC (id : String) : ClientOut
deriving DecidableEq

/-- Overwrite the binding for a key in a string-keyed map
(`obj[id] = v`). -/
def setKey {β : Type} (k : String) (v : β) (l : List (String × β)) :
    List (String × β) :=
  (k, v) :: l.filter (fun p => p.1 != k)

/-- The `createPeerConnection(id)` of `mingle_client.js`: build the
connection, attach the local tracks when the `localStreamPromise` resolved
(the `catch` block swallows a media failure, leaving zero outgoing tracks),
register it under `peerConnections[id]`, and return it. It never fails. -/
def createPeerConnection (media : MediaResult) (id : String)
    (pcs : List (String × PCState)) : PCState × List (String × PCState) :=
  let pc := mkPC media
  (pc, setKey id pc pcs)

/-- The string `id` field of a received message, when present
(`data.id` as compared against `socket.id`; the relay always stamps a
string id, so bodies whose `id` is missing or non-string are outside the
modelled protocol and handled as no-ops). -/
def msgIdStr (data : Payload) : Option String :=
  match List.lookup "id" data with
  | some (JVal.str s) => some s
  | _ => none

/-- Handler for `socket.on('position', ...)` on the client (`own` is
`socket.id`, `media` the outcome of `localStreamPromise`):
skip own echoes (`if (data.id === socket.id) return`), lazily create the
peer connection and — when `socket.id < data.id` — create and send the
offer (`setLocalDescription` then `socket.emit('rtc-offer', ...)`), lazily
create the remote avatar entity plus its `video-` element, then apply the
transform fields to the remote nodes. -/
def onPositionMsg (own : String) (media : MediaResult) (st : ClientState)
    (data : Payload) : ClientState × List ClientOut :=
  match msgIdStr data with
  | none => (st, [])
  | some rid =>
    if rid = own then (st, [])
    else
      let pcStep : List (String × PCState) × List ClientOut :=
        match List.lookup rid st.pcs with
        | some _ => (st.pcs, [])
        | none =>
          let cr := createPeerConnection media rid st.pcs
          if idLt own rid then
            (setKey rid { cr.1 with localDescSet := true } cr.2,
             [ClientOut.rtcOffer rid])
          else
            (cr.2, [])
      let entryStep : List (String × Remote) × List String :=
        match List.lookup rid st.remotes with
        | some _ => (st.remotes, st.videoEls)
        | none => (setKey rid newRemote st.remotes, rid :: st.videoEls)
      let remotes2 : List (String × Remote) :=
        match List.lookup rid entryStep.1 with
        | some r =>
          setKey rid
            { pos := List.lookup "position" data
              rotY :=
                if jsTruthy (List.lookup "rotation" data) then
                  some (jvField ((List.lookup "rotation" data).getD JVal.null) "y")
                else r.rotY
              tilt := some (jsOr (List.lookup "tvTilt" data) (JVal.num 0))
              camVisible := jsTruthy (List.lookup "spectatePos" data) }
            entryStep.1
        | none => entryStep.1
      ({ pcs := pcStep.1, remotes := remotes2, videoEls := entryStep.2 },
       pcStep.2)

/-- Handler for `socket.on('rtc-offer', ...)` on the client: reuse or create
the peer connection, `setRemoteDescription(offer)`, `createAnswer()`,
`setLocalDescription(answer)`, then `socket.emit('rtc-answer', ...)`. -/
def onRtcOfferMsg (media : MediaResult) (st : ClientState) (src : String) :
    ClientState × List ClientOut :=
  let pc0 : PCState × List (String × PCState) :=
    match List.lookup src st.pcs with
    | some pc => (pc, st.pcs)
    | none => createPeerConnection media src st.pcs
  ({ st with
     pcs := setKey src { pc0.1 with remoteDescSet := true, localDescSet := true } pc0.2 },
   [ClientOut.rtcAnswer src])

/-- Handler for `socket.on('rtc-answer', ...)` on the client:
`setRemoteDescription(answer)` when the peer connection exists, otherwise
nothing. -/
def onRtcAnswerMsg (st : ClientState) (src : String) :
    ClientState × List ClientOut :=
  match List.lookup src st.pcs with
  | some pc =>
    ({ st with pcs := setKey src { pc with remoteDescSet := true } st.pcs }, [])
  | none => (st, [])

/-- Handler for `socket.on('ice-candidate', ...)` on the client:
`if (pc && candidate) pc.addIceCandidate(...).catch(log)`. There is no
buffering: when no peer connection exists for `src` the candidate is
ignored outright, and when the remote description is not yet set the
`addIceCandidate` promise rejects and the rejection is only logged, so the
candidate is dropped. Only with the remote description in place is the
candidate applied, immediately and in arrival order. -/
def onIceCandidateMsg (st : ClientState) (src : String) (cand : Option Nat) :
    ClientState × List ClientOut :=
  match List.lookup src st.pcs, cand with
  | some pc, some c =>
    if pc.remoteDescSet then
      ({ st with pcs := setKey src { pc with applied := pc.applied ++ [c] } st.pcs }, [])
    else (st, [])
  | _, _ => (st, [])

/-- Handler for `socket.on('disconnectClient', ...)` on the client: remove
the remote avatar and marker from the scene and the `remotes` entry, close
and delete the peer connection, and remove the `video-` element. -/
def onDisconnectMsg (st : ClientState) (id : String) :
    ClientState × List ClientOut :=
  ({ remotes := st.remotes.filter (fun p => p.1 != id)
     pcs := st.pcs.filter (fun p => p.1 != id)
     videoEls := st.videoEls.filter (fun s => s != id) },
   if (List.lookup id st.pcs).isSome then [ClientOut.closePC id] else [])

/-- Replaying the same `position` message `n` times through the client
handler. -/
def replayPosition (own : String) (media : MediaResult) (data : Payload) :
    Nat → ClientState → ClientState
  | 0, st => st
  | n + 1, st => replayPosition own media data n (onPositionMsg own media st data).1

/-!
## Helper lemmas
-/

/-- Lexicographic comparison is asymmetric. -/
theorem jsLtChars_asymm :
    ∀ as bs : List Char, jsLtChars as bs = true → jsLtChars bs as = false := by
  intro as
  induction as with
  | nil =>
    intro bs h
    cases bs with
    | nil => simp [jsLtChars] at h
    | cons b bs => simp [jsLtChars]
  | cons a as ih =>
    intro bs h
    cases bs with
    | nil => simp [jsLtChars] at h
    | cons b bs =>
      by_cases hab : a < b
      · have hba : ¬ b < a := lt_asymm hab
        simp [jsLtChars, hab, hba]
      · by_cases hba : b < a
        · simp [jsLtChars, hab, hba] at h
        · simp [jsLtChars, hab, hba] at h ⊢
          exact ih bs h

/-- Lexicographic comparison is total on distinct lists. -/
theorem jsLtChars_total :
    ∀ as bs : List Char, as ≠ bs →
      jsLtChars as bs = true ∨ jsLtChars bs as = true := by
  intro as
  induction as with
  | nil =>
    intro bs h
    cases bs with
    | nil => exact absurd rfl h
    | cons b bs => left; simp [jsLtChars]
  | cons a as ih =>
    intro bs h
    cases bs with
    | nil => right; simp [jsLtChars]
    | cons b bs =>
      rcases lt_trichotomy a b with hab | hab | hab
      · left; simp [jsLtChars, hab]
      · subst hab
        have hne : as ≠ bs := by
          intro hcontra; exact h (by rw [hcontra])
        have hirr : ¬ a < a := lt_irrefl a
        rcases ih bs hne with h1 | h1
        · left; simp [jsLtChars, hirr, h1]
        · right; simp [jsLtChars, hirr, h1]
      · right; simp [jsLtChars, hab, lt_asymm hab]

/-- Two strings with equal character data are equal. -/
theorem string_data_inj {a b : String} (h : a.data = b.data) : a = b := by
  cases a
  cases b
  exact congrArg String.mk h

/-- On distinct ids the tie-break is complementary: one side compares lower
exactly when the other does not. -/
theorem idLt_complementary {a b : String} (h : a ≠ b) :
    idLt a b = true ↔ idLt b a = false := by
  have hdata : a.data ≠ b.data := fun hd => h (string_data_inj hd)
  constructor
  · intro h1
    exact jsLtChars_asymm a.data b.data h1
  · intro h1
    rcases jsLtChars_total a.data b.data hdata with h2 | h2
    · exact h2
    · rw [idLt] at h1
      rw [h1] at h2
      cases h2

/-- Looking a key up after appending, when the key is absent from the first
list. -/
theorem lookup_append_of_none {k : String} {l1 l2 : List (String × JVal)}
    (h : List.lookup k l1 = none) :
    List.lookup k (l1 ++ l2) = List.lookup k l2 := by
  induction l1 with
  | nil => simp
  | cons p t ih =>
    by_cases hk : k = p.1
    · simp [List.lookup, hk] at h
    · simp only [List.lookup, List.cons_append] at h ⊢
      rw [beq_false_of_ne hk] at h ⊢
      exact ih h

/-- Looking a key up after appending, when the key is present in the first
list. -/
theorem lookup_append_of_some {k : String} {v : JVal} {l1 l2 : List (String × JVal)}
    (h : List.lookup k l1 = some v) :
    List.lookup k (l1 ++ l2) = some v := by
  induction l1 with
  | nil => simp at h
  | cons p t ih =>
    by_cases hk : k = p.1
    · simp only [List.lookup, List.cons_append] at h ⊢
      rw [beq_iff_eq.mpr hk] at h ⊢
      exact h
    · simp only [List.lookup, List.cons_append] at h ⊢
      rw [beq_false_of_ne hk] at h ⊢
      exact ih h

/-- Looking up the key just written. -/
theorem lookup_cons_self {β : Type} (k : String) (v : β) (l : List (String × β)) :
    List.lookup k ((k, v) :: l) = some v := by
  simp [List.lookup]

/-- A key is absent after filtering away its bindings. -/
theorem lookup_filterKey_self {β : Type} (k : String) (l : List (String × β)) :
    List.lookup k (l.filter (fun p => p.1 != k)) = none := by
  induction l with
  | nil => rfl
  | cons p t ih =>
    by_cases h : p.1 = k
    · simpa [List.filter, h] using ih
    · have h1 : (p.1 != k) = true := bne_iff_ne.mpr h
      have h2 : (k == p.1) = false := beq_false_of_ne (Ne.symm h)
      simp [List.filter, h1, List.lookup, h2, ih]

/-- Filtering away one key leaves lookups of other keys unchanged. -/
theorem lookup_filterKey_ne {β : Type} {k k' : String} (l : List (String × β))
    (h : k' ≠ k) :
    List.lookup k' (l.filter (fun p => p.1 != k)) = List.lookup k' l := by
  induction l with
  | nil => rfl
  | cons p t ih =>
    by_cases hp : p.1 = k
    · have h2 : (k' == p.1) = false := beq_false_of_ne (hp ▸ h)
      have h3 : (k' == k) = false := beq_false_of_ne h
      simp [List.filter, hp, List.lookup, h2, h3, ih]
    · have h1 : (p.1 != k) = true := bne_iff_ne.mpr hp
      by_cases hk : k' = p.1
      · simp [List.filter, h1, List.lookup, hk]
      · have h2 : (k' == p.1) = false := beq_false_of_ne hk
        simp [List.filter, h1, List.lookup, h2, ih]

/-- Looking up the key just set. -/
theorem lookup_setKey_self {β : Type} (k : String) (v : β) (l : List (String × β)) :
    List.lookup k (setKey k v l) = some v := by
  simp [setKey, List.lookup]

/-- Setting one key leaves lookups of other keys unchanged. -/
theorem lookup_setKey_ne {β : Type} {k k' : String} (v : β) (l : List (String × β))
    (h : k' ≠ k) :
    List.lookup k' (setKey k v l) = List.lookup k' l := by
  have h2 : (k' == k) = false := beq_false_of_ne h
  simp [setKey, List.lookup, h2, lookup_filterKey_ne l h]

/-- Filtering by the same predicate twice is the same as once. -/
theorem filter_idem {α : Type} (p : α → Bool) (l : List α) :
    (l.filter p).filter p = l.filter p := by
  rw [List.filter_filter]
  simp

/-!
## Claim theorems
-/

/-- A position message whose id equals the client's own socket id is ignored
by the client handler: state unchanged, nothing emitted. -/
theorem onPositionMsg_self (own : String) (media : MediaResult)
    (st : ClientState) (data : Payload) (h : msgIdStr data = some own) :
    onPositionMsg own media st data = (st, []) := by
  simp [onPositionMsg, h]

/-- Replaying a self-tagged position message any number of times leaves the
client state unchanged. -/
theorem replayPosition_self (own : String) (media : MediaResult)
    (data : Payload) (h : msgIdStr data = some own) :
    ∀ n st, replayPosition own media data n st = st := by
  intro n
  induction n with
  | zero => intro st; rfl
  | succ n ih =>
    intro st
    simp only [replayPosition, onPositionMsg_self own media st data h]
    exact ih st

/-- Example registry used by concrete witnesses. -/
def exRegistry : RelayState := ⟨["alice", "bob"]⟩

/-- Example transform payload (no `id` key) used by concrete witnesses. -/
def exTransform : Payload :=
  [("position", JVal.obj [("x", JVal.num 1), ("y", JVal.num 0), ("z", JVal.num 0)])]

/-- C1: a position message sent by a connected session is re-emitted by the
relay as a single `position` broadcast tagged with the sender's session id
and delivered to all connected sessions, the sender included; and any
client that receives a position message whose id equals its own session id
ignores it entirely — the handler leaves the client state untouched and
performs no remote-avatar side effects, however many times the message is
replayed. -/
theorem c1_broadcast_all_and_self_filter
    (st : RelayState) (sender : String) (data : Payload)
    (media : MediaResult) (cst : ClientState) (n : Nat)
    (hid : List.lookup "id" data = none) (hmem : sender ∈ st.sessions) :
    (onPosition st sender data).2.event = "position" ∧
    (onPosition st sender data).2.targets = st.sessions ∧
    sender ∈ (onPosition st sender data).2.targets ∧
    List.lookup "id" (onPosition st sender data).2.body = some (JVal.str sender) ∧
    onPositionMsg sender media cst (onPosition st sender data).2.body = (cst, []) ∧
    replayPosition sender media (onPosition st sender data).2.body n cst = cst := by
  have hb : List.lookup "id" (data ++ [("id", JVal.str sender)])
      = some (JVal.str sender) := by
    rw [lookup_append_of_none hid]
    simp [List.lookup]
  have hm : msgIdStr (data ++ [("id", JVal.str sender)]) = some sender := by
    simp [msgIdStr, hb]
  refine ⟨rfl, rfl, hmem, hb, ?_, ?_⟩
  · exact onPositionMsg_self sender media cst _ hm
  · exact replayPosition_self sender media _ hm n cst

/-- Concrete run of C1: the registry holds alice and bob, alice sends a
transform, and replaying the echoed broadcast three times at alice changes
nothing. -/
theorem c1_broadcast_all_and_self_filter_witness :
    (List.lookup "id" exTransform = none ∧ "alice" ∈ exRegistry.sessions) ∧
    ((onPosition exRegistry "alice" exTransform).2.event = "position" ∧
     (onPosition exRegistry "alice" exTransform).2.targets = exRegistry.sessions ∧
     "alice" ∈ (onPosition exRegistry "alice" exTransform).2.targets ∧
     List.lookup "id" (onPosition exRegistry "alice" exTransform).2.body
       = some (JVal.str "alice") ∧
     onPositionMsg "alice" MediaResult.err emptyClient
       (onPosition exRegistry "alice" exTransform).2.body = (emptyClient, []) ∧
     replayPosition "alice" MediaResult.err
       (onPosition exRegistry "alice" exTransform).2.body 3 emptyClient
       = emptyClient) :=
  ⟨⟨rfl, by decide⟩,
   c1_broadcast_all_and_self_filter exRegistry "alice" exTransform
     MediaResult.err emptyClient 3 rfl (by decide)⟩

/-- C2: for two distinct session ids the initiator tie-break is
complementary and deterministic — each client, comparing its own id to the
remote id with `socket.id < data.id`, sends the offer exactly when its own
id is lexicographically lower, and the two sides never both initiate nor
both stay idle. Stated on the client position handler: when the remote peer
is not yet known, the offer is emitted if and only if the tie-break holds,
and the tie-break of one side holds exactly when the other side's fails. -/
theorem c2_tiebreak_complementary
    (A B : String) (media : MediaResult) (cstA cstB : ClientState)
    (dataB dataA : Payload)
    (hAB : A ≠ B)
    (hidB : msgIdStr dataB = some B) (hpcA : List.lookup B cstA.pcs = none)
    (hidA : msgIdStr dataA = some A) (hpcB : List.lookup A cstB.pcs = none) :
    (ClientOut.rtcOffer B ∈ (onPositionMsg A media cstA dataB).2 ↔ idLt A B = true) ∧
    (ClientOut.rtcOffer A ∈ (onPositionMsg B media cstB dataA).2 ↔ idLt B A = true) ∧
    (idLt A B = true ↔ idLt B A = false) := by
  refine ⟨?_, ?_, idLt_complementary hAB⟩
  · cases hlt : idLt A B <;>
      simp [onPositionMsg, hidB, Ne.symm hAB, hpcA, hlt]
  · cases hlt : idLt B A <;>
      simp [onPositionMsg, hidA, hAB, hpcB, hlt]

/-- Concrete run of C2: sessions alice and bob each learn of the other; alice
(the lexicographically lower id) offers, bob does not. -/
theorem c2_tiebreak_complementary_witness :
    (("alice" : String) ≠ "bob" ∧
     msgIdStr [("id", JVal.str "bob")] = some "bob" ∧
     msgIdStr [("id", JVal.str "alice")] = some "alice" ∧
     List.lookup "bob" emptyClient.pcs = none ∧
     List.lookup "alice" emptyClient.pcs = none) ∧
    ((ClientOut.rtcOffer "bob"
        ∈ (onPositionMsg "alice" MediaResult.err emptyClient
            [("id", JVal.str "bob")]).2 ↔ idLt "alice" "bob" = true) ∧
     (ClientOut.rtcOffer "alice"
        ∈ (onPositionMsg "bob" MediaResult.err emptyClient
            [("id", JVal.str "alice")]).2 ↔ idLt "bob" "alice" = true) ∧
     (idLt "alice" "bob" = true ↔ idLt "bob" "alice" = false)) :=
  ⟨⟨by decide, rfl, rfl, rfl, rfl⟩,
   c2_tiebreak_complementary "alice" "bob" MediaResult.err emptyClient
     emptyClient [("id", JVal.str "bob")] [("id", JVal.str "alice")]
     (by decide) rfl rfl rfl rfl⟩

/-- C3: every relayed offer, answer and ICE-candidate message is stamped
with `from` equal to the transport-level sender id and is delivered to at
most the single session named by the routing key — any session that
receives it is that recipient, so the signalling relay never broadcasts. -/
theorem c3_signalling_directed
    (st : RelayState) (sender dest s : String) (v : JVal) :
    (s ∈ (onRtcOffer st sender dest v).2.targets → s = dest) ∧
    (s ∈ (onRtcAnswer st sender dest v).2.targets → s = dest) ∧
    (s ∈ (onIceCandidate st sender dest v).2.targets → s = dest) ∧
    (onRtcOffer st sender dest v).2.targets.length ≤ 1 ∧
    (onRtcAnswer st sender dest v).2.targets.length ≤ 1 ∧
    (onIceCandidate st sender dest v).2.targets.length ≤ 1 ∧
    List.lookup "from" (onRtcOffer st sender dest v).2.body
      = some (JVal.str sender) ∧
    List.lookup "from" (onRtcAnswer st sender dest v).2.body
      = some (JVal.str sender) ∧
    List.lookup "from" (onIceCandidate st sender dest v).2.body
      = some (JVal.str sender) := by
  refine ⟨?_, ?_, ?_, ?_, ?_, ?_, ?_, ?_, ?_⟩ <;>
    simp only [onRtcOffer, onRtcAnswer, onIceCandidate, directedMsg] <;>
    first
      | (split <;> simp_all)
      | simp [List.lookup]

/-- Concrete run of C3: an offer routed to bob reaches only bob and carries
alice as its sender stamp. -/
theorem c3_signalling_directed_witness :
    (("bob" : String) = "bob") ∧
    List.lookup "from" (onRtcOffer exRegistry "alice" "bob" JVal.null).2.body
      = some (JVal.str "alice") :=
  ⟨(c3_signalling_directed exRegistry "alice" "bob" "bob" JVal.null).1 (by decide),
   (c3_signalling_directed exRegistry "alice" "bob" "bob" JVal.null).2.2.2.2.2.2.1⟩

/-- C7: a directed offer, answer or ICE-candidate message whose routing key
does not name a connected session is silently dropped — it is delivered to
nobody, the relay state is unchanged, no error event exists to be returned,
and the sender remains connected. -/
theorem c7_unknown_recipient_dropped
    (st : RelayState) (sender dest : String) (v : JVal)
    (hdest : dest ∉ st.sessions) :
    (onRtcOffer st sender dest v).1 = st ∧
    (onRtcOffer st sender dest v).2.targets = [] ∧
    (onRtcAnswer st sender dest v).1 = st ∧
    (onRtcAnswer st sender dest v).2.targets = [] ∧
    (onIceCandidate st sender dest v).1 = st ∧
    (onIceCandidate st sender dest v).2.targets = [] ∧
    (sender ∈ st.sessions → sender ∈ (onRtcOffer st sender dest v).1.sessions) := by
  refine ⟨rfl, ?_, rfl, ?_, rfl, ?_, fun h => h⟩ <;>
    simp [onRtcOffer, onRtcAnswer, onIceCandidate, directedMsg, hdest]

/-- Concrete run of C7: alice signals to the departed id zed; nothing is
delivered, the registry is untouched and alice stays connected. -/
theorem c7_unknown_recipient_dropped_witness :
    (("zed" : String) ∉ exRegistry.sessions) ∧
    ((onRtcOffer exRegistry "alice" "zed" JVal.null).1 = exRegistry ∧
     (onRtcOffer exRegistry "alice" "zed" JVal.null).2.targets = [] ∧
     (onRtcAnswer exRegistry "alice" "zed" JVal.null).1 = exRegistry ∧
     (onRtcAnswer exRegistry "alice" "zed" JVal.null).2.targets = [] ∧
     (onIceCandidate exRegistry "alice" "zed" JVal.null).1 = exRegistry ∧
     (onIceCandidate exRegistry "alice" "zed" JVal.null).2.targets = [] ∧
     ("alice" ∈ exRegistry.sessions →
       "alice" ∈ (onRtcOffer exRegistry "alice" "zed" JVal.null).1.sessions)) :=
  ⟨by decide,
   c7_unknown_recipient_dropped exRegistry "alice" "zed" JVal.null (by decide)⟩

/-- C5: when a connected session disconnects, the relay emits exactly one
departure (`disconnectClient`) event carrying that session's id, delivered
to every other connected session and never to the departing one, emits the
updated live count to all remaining sessions, processes a repeated
disconnect for the same id as a no-op, and afterwards no position broadcast
from any still-connected sender carries the departed id. -/
theorem c5_disconnect_departure
    (st : RelayState) (S : String) (hS : S ∈ st.sessions) :
    ((onDisconnect st S).2.filter
        (fun m => m.event == "disconnectClient")).length = 1 ∧
    (∀ m ∈ (onDisconnect st S).2, m.event = "disconnectClient" →
      S ∉ m.targets ∧
      (∀ t ∈ st.sessions, t ≠ S → t ∈ m.targets) ∧
      List.lookup "id" m.body = some (JVal.str S)) ∧
    (⟨"clientCount", (onDisconnect st S).1.sessions,
       [("count", JVal.num (Int.ofNat (onDisconnect st S).1.sessions.length))]⟩ : Msg)
      ∈ (onDisconnect st S).2 ∧
    onDisconnect (onDisconnect st S).1 S = ((onDisconnect st S).1, []) ∧
    S ∉ (onDisconnect st S).1.sessions ∧
    (∀ sender data, sender ∈ (onDisconnect st S).1.sessions →
      List.lookup "id" data = none →
      List.lookup "id" (onPosition (onDisconnect st S).1 sender data).2.body
        ≠ some (JVal.str S)) := by
  have hgone : S ∉ removeSession S st.sessions := by
    simp [removeSession, List.mem_filter]
  refine ⟨?_, ?_, ?_, ?_, ?_, ?_⟩
  · simp [onDisconnect, hS]
  · intro m hm hev
    rw [onDisconnect, if_pos hS] at hm
    simp only [List.mem_cons, List.mem_singleton] at hm
    rcases hm with hm | hm | hm
    · subst hm
      refine ⟨hgone, ?_, by simp [List.lookup]⟩
      intro t ht htne
      simp [removeSession, List.mem_filter, ht, bne_iff_ne.mpr htne]
    · subst hm
      simp at hev
    · cases hm
  · rw [onDisconnect, if_pos hS]
    simp [onDisconnect, hS]
  · have h1 : (onDisconnect st S).1 = ⟨removeSession S st.sessions⟩ := by
      rw [onDisconnect, if_pos hS]
    rw [h1]
    simp [onDisconnect, hgone]
  · have h1 : (onDisconnect st S).1 = ⟨removeSession S st.sessions⟩ := by
      rw [onDisconnect, if_pos hS]
    rw [h1]
    exact hgone
  · intro sender data hmem hd
    have h1 : (onDisconnect st S).1 = ⟨removeSession S st.sessions⟩ := by
      rw [onDisconnect, if_pos hS]
    rw [h1] at hmem
    have hne : sender ≠ S := by
      simp only [removeSession, List.mem_filter, bne_iff_ne] at hmem
      exact hmem.2
    simp only [onPosition]
    rw [lookup_append_of_none hd]
    simp [List.lookup, hne]

/-- Concrete run of C5: bob disconnects from a three-session registry. -/
theorem c5_disconnect_departure_witness :
    ("bob" ∈ (⟨["alice", "bob", "carol"]⟩ : RelayState).sessions) ∧
    ((onDisconnect ⟨["alice", "bob", "carol"]⟩ "bob").2.filter
        (fun m => m.event == "disconnectClient")).length = 1 ∧
    "bob" ∉ (onDisconnect ⟨["alice", "bob", "carol"]⟩ "bob").1.sessions ∧
    onDisconnect (onDisconnect ⟨["alice", "bob", "carol"]⟩ "bob").1 "bob"
      = ((onDisconnect ⟨["alice", "bob", "carol"]⟩ "bob").1, []) :=
  ⟨by decide,
   (c5_disconnect_departure ⟨["alice", "bob", "carol"]⟩ "bob" (by decide)).1,
   (c5_disconnect_departure ⟨["alice", "bob", "carol"]⟩ "bob" (by decide)).2.2.2.2.1,
   (c5_disconnect_departure ⟨["alice", "bob", "carol"]⟩ "bob" (by decide)).2.2.2.1⟩

/-- C6: processing a departure event for a remote id — whatever negotiation
state its peer connection is in — removes the peer connection entry (closing
the connection when one existed), the remote avatar entry and the remote
video element, and running the handler again for the same id is a no-op. -/
theorem c6_departure_cleanup (st : ClientState) (id : String) :
    List.lookup id (onDisconnectMsg st id).1.pcs = none ∧
    List.lookup id (onDisconnectMsg st id).1.remotes = none ∧
    id ∉ (onDisconnectMsg st id).1.videoEls ∧
    ((List.lookup id st.pcs).isSome = true →
      ClientOut.closePC id ∈ (onDisconnectMsg st id).2) ∧
    onDisconnectMsg (onDisconnectMsg st id).1 id = ((onDisconnectMsg st id).1, []) := by
  refine ⟨lookup_filterKey_self id _, lookup_filterKey_self id _, ?_, ?_, ?_⟩
  · simp [onDisconnectMsg, List.mem_filter]
  · intro h
    simp [onDisconnectMsg, h]
  · simp only [onDisconnectMsg, lookup_filterKey_self, filter_idem]
    simp

/-- Example client state used by concrete witnesses: one known peer, bob,
with a peer connection, a remote avatar and a video element. -/
def exClient : ClientState :=
  { pcs := [("bob", mkPC MediaResult.err)]
    remotes := [("bob", newRemote)]
    videoEls := ["bob"] }

/-- Concrete run of C6: bob departs mid-negotiation (no remote description
was ever set) and every resource keyed by bob is released. -/
theorem c6_departure_cleanup_witness :
    (List.lookup "bob" exClient.pcs).isSome = true ∧
    ClientOut.closePC "bob" ∈ (onDisconnectMsg exClient "bob").2 :=
  ⟨rfl, (c6_departure_cleanup exClient "bob").2.2.2.1 rfl⟩

/-- C4 counterexample: there is no pendingCandidates buffer. A candidate
from carol arrives before any peer connection for carol exists (so before
any remote description is set); carol's offer then arrives and the remote
description is set; yet the applied-candidate sequence of carol's peer
connection is empty, not the buffered-and-replayed `[7]` the claim
requires — the early candidate was dropped, not buffered. -/
theorem c4_ice_buffering_counterexample :
    (List.lookup "carol"
      ((onRtcOfferMsg (MediaResult.ok ["video", "audio"])
        (onIceCandidateMsg emptyClient "carol" (some 7)).1 "carol").1).pcs).map
      PCState.applied = some [] ∧
    ((some [] : Option (List Nat)) ≠ some [7]) :=
  ⟨rfl, by simp⟩

/-- C4 as amended: an ICE candidate that arrives before the remote
description is set is dropped, not buffered — outright when no peer
connection exists for the sender, and via the logged-and-ignored
`addIceCandidate` rejection when one exists without a remote description;
only candidates arriving after the remote description is set are applied,
immediately and in arrival order. -/
theorem c4_ice_no_buffering_amended
    (st : ClientState) (a b d : String) (pcb pcd : PCState) (k1 k2 k3 : Nat)
    (ha : List.lookup a st.pcs = none)
    (hb : List.lookup b st.pcs = some pcb) (hbdesc : pcb.remoteDescSet = true)
    (hd : List.lookup d st.pcs = some pcd) (hddesc : pcd.remoteDescSet = false) :
    onIceCandidateMsg st a (some k1) = (st, []) ∧
    onIceCandidateMsg st d (some k3) = (st, []) ∧
    (List.lookup b (onIceCandidateMsg st b (some k2)).1.pcs).map PCState.applied
      = some (pcb.applied ++ [k2]) := by
  refine ⟨?_, ?_, ?_⟩
  · simp [onIceCandidateMsg, ha]
  · simp [onIceCandidateMsg, hd, hddesc]
  · simp [onIceCandidateMsg, hb, hbdesc, lookup_setKey_self]

/-- Example client used by the amended C4 witness: peer x has no remote
description yet, peer y has one and has already applied candidate 5. -/
def exIceClient : ClientState :=
  ⟨[("x", mkPC MediaResult.err),
    ("y", { outTracks := [], localDescSet := true,
            remoteDescSet := true, applied := [5] })], [], []⟩

/-- Concrete run of the amended C4: a candidate for the unknown z is
ignored, one for x is dropped by the rejected `addIceCandidate`, and one
for y is appended to its applied sequence. -/
theorem c4_ice_no_buffering_amended_witness :
    (List.lookup "z" exIceClient.pcs = none ∧
     (mkPC MediaResult.err).remoteDescSet = false) ∧
    onIceCandidateMsg exIceClient "z" (some 1) = (exIceClient, []) ∧
    onIceCandidateMsg exIceClient "x" (some 3) = (exIceClient, []) ∧
    (List.lookup "y" (onIceCandidateMsg exIceClient "y" (some 2)).1.pcs).map
      PCState.applied = some ([5] ++ [2]) :=
  ⟨⟨rfl, rfl⟩,
   (c4_ice_no_buffering_amended exIceClient "z" "y" "x"
      { outTracks := [], localDescSet := true,
        remoteDescSet := true, applied := [5] }
      (mkPC MediaResult.err) 1 2 3 rfl rfl rfl rfl rfl).1,
   (c4_ice_no_buffering_amended exIceClient "z" "y" "x"
      { outTracks := [], localDescSet := true,
        remoteDescSet := true, applied := [5] }
      (mkPC MediaResult.err) 1 2 3 rfl rfl rfl rfl rfl).2.1,
   (c4_ice_no_buffering_amended exIceClient "z" "y" "x"
      { outTracks := [], localDescSet := true,
        remoteDescSet := true, applied := [5] }
      (mkPC MediaResult.err) 1 2 3 rfl rfl rfl rfl rfl).2.2⟩

/-- C8 counterexample: the relay performs no validation. A payload whose
`position` field is the non-numeric string "bogus" is re-emitted verbatim —
the malformed field is neither dropped nor defaulted — and the relay state
after the handler equals the state before, so no sanitised `lastTransform`
is stored anywhere (the relay state has no per-session storage at all). -/
theorem c8_validation_counterexample :
    List.lookup "position"
      (onPosition exRegistry "alice" [("position", JVal.str "bogus")]).2.body
      = some (JVal.str "bogus") ∧
    (some (JVal.str "bogus") ≠ (none : Option JVal)) ∧
    (onPosition exRegistry "alice" [("position", JVal.str "bogus")]).1
      = exRegistry :=
  ⟨rfl, by simp, rfl⟩

/-- C8 as amended: the relay neither validates nor stores transform
payloads. Every field of the payload, malformed or not, is re-emitted
verbatim in the broadcast to all sessions, the relay state is unchanged (no
`lastTransform` exists), and the handler is a total function, so no payload
crashes the relay or disconnects the sender. -/
theorem c8_no_validation_amended
    (st : RelayState) (sender : String) (data : Payload)
    (k : String) (v : JVal) (hk : List.lookup k data = some v) :
    (onPosition st sender data).1 = st ∧
    (onPosition st sender data).2.event = "position" ∧
    (onPosition st sender data).2.targets = st.sessions ∧
    List.lookup k (onPosition st sender data).2.body = some v :=
  ⟨rfl, rfl, rfl, lookup_append_of_some hk⟩

/-- Concrete run of the amended C8: the malformed payload passes through
unchanged and the relay stores nothing. -/
theorem c8_no_validation_amended_witness :
    List.lookup "position" ([("position", JVal.str "bogus")] : Payload)
      = some (JVal.str "bogus") ∧
    ((onPosition exRegistry "bob" [("position", JVal.str "bogus")]).1 = exRegistry ∧
     (onPosition exRegistry "bob" [("position", JVal.str "bogus")]).2.event
       = "position" ∧
     (onPosition exRegistry "bob" [("position", JVal.str "bogus")]).2.targets
       = exRegistry.sessions ∧
     List.lookup "position"
       (onPosition exRegistry "bob" [("position", JVal.str "bogus")]).2.body
       = some (JVal.str "bogus")) :=
  ⟨rfl,
   c8_no_validation_amended exRegistry "bob" [("position", JVal.str "bogus")]
     "position" (JVal.str "bogus") rfl⟩

/-- C9: when local media acquisition fails, `createPeerConnection` still
returns a registered, usable peer connection with zero outgoing tracks, and
the responder path still completes — the client answers an incoming offer,
sets the remote description, and peer connections for other remote ids are
unaffected. -/
theorem c9_media_failure_graceful
    (pcs : List (String × PCState)) (id : String) (cst : ClientState)
    (src other : String)
    (hsrc : List.lookup src cst.pcs = none) (hother : other ≠ src) :
    (createPeerConnection MediaResult.err id pcs).1.outTracks = [] ∧
    List.lookup id (createPeerConnection MediaResult.err id pcs).2
      = some (createPeerConnection MediaResult.err id pcs).1 ∧
    (onRtcOfferMsg MediaResult.err cst src).2 = [ClientOut.rtcAnswer src] ∧
    (List.lookup src (onRtcOfferMsg MediaResult.err cst src).1.pcs).map
      PCState.remoteDescSet = some true ∧
    (List.lookup src (onRtcOfferMsg MediaResult.err cst src).1.pcs).map
      PCState.outTracks = some [] ∧
    List.lookup other (onRtcOfferMsg MediaResult.err cst src).1.pcs
      = List.lookup other cst.pcs := by
  refine ⟨rfl, ?_, rfl, ?_, ?_, ?_⟩
  · exact lookup_setKey_self id _ pcs
  · simp [onRtcOfferMsg, hsrc, lookup_setKey_self]
  · simp [onRtcOfferMsg, hsrc, lookup_setKey_self, createPeerConnection, mkPC]
  · simp only [onRtcOfferMsg, hsrc]
    rw [lookup_setKey_ne _ _ hother]
    exact lookup_setKey_ne _ _ hother

/-- Concrete run of C9: with media acquisition failed, the client still
answers carol's offer with a receive-only connection, leaving bob's
connection untouched. -/
theorem c9_media_failure_graceful_witness :
    (List.lookup "carol" exClient.pcs = none ∧ ("bob" : String) ≠ "carol") ∧
    ((createPeerConnection MediaResult.err "carol" []).1.outTracks = [] ∧
     List.lookup "carol" (createPeerConnection MediaResult.err "carol" []).2
       = some (createPeerConnection MediaResult.err "carol" []).1 ∧
     (onRtcOfferMsg MediaResult.err exClient "carol").2
       = [ClientOut.rtcAnswer "carol"] ∧
     (List.lookup "carol" (onRtcOfferMsg MediaResult.err exClient "carol").1.pcs).map
       PCState.remoteDescSet = some true ∧
     (List.lookup "carol" (onRtcOfferMsg MediaResult.err exClient "carol").1.pcs).map
       PCState.outTracks = some [] ∧
     List.lookup "bob" (onRtcOfferMsg MediaResult.err exClient "carol").1.pcs
       = List.lookup "bob" exClient.pcs) :=
  ⟨⟨rfl, by decide⟩,
   c9_media_failure_graceful [] "carol" exClient "carol" "bob" rfl (by decide)⟩

/-- C10: the relay's position rebroadcast spreads the client payload over
the id stamp, so a payload that itself carries an `id` field overrides the
sender stamp — the id on a position broadcast is spoofable — whereas the
relayed signalling messages construct their bodies afresh and always carry
`from` equal to the transport-level sender id, whatever the payload. -/
theorem c10_spoofable_position_id
    (st : RelayState) (sender dest : String) (data : Payload) (v w : JVal)
    (hid : List.lookup "id" data = some v) :
    List.lookup "id" (onPosition st sender data).2.body = some v ∧
    List.lookup "from" (onRtcOffer st sender dest w).2.body
      = some (JVal.str sender) ∧
    List.lookup "from" (onRtcAnswer st sender dest w).2.body
      = some (JVal.str sender) ∧
    List.lookup "from" (onIceCandidate st sender dest w).2.body
      = some (JVal.str sender) := by
  refine ⟨lookup_append_of_some hid, ?_, ?_, ?_⟩ <;>
    simp [onRtcOffer, onRtcAnswer, onIceCandidate, directedMsg, List.lookup]

/-- Concrete run of C10: bob sends a position payload claiming to be alice;
the broadcast carries alice as its id, while bob's signalling messages are
still stamped from bob. -/
theorem c10_spoofable_position_id_witness :
    List.lookup "id" ([("id", JVal.str "alice")] : Payload)
      = some (JVal.str "alice") ∧
    (List.lookup "id"
       (onPosition exRegistry "bob" [("id", JVal.str "alice")]).2.body
       = some (JVal.str "alice") ∧
     List.lookup "from" (onRtcOffer exRegistry "bob" "alice" JVal.null).2.body
       = some (JVal.str "bob") ∧
     List.lookup "from" (onRtcAnswer exRegistry "bob" "alice" JVal.null).2.body
       = some (JVal.str "bob") ∧
     List.lookup "from" (onIceCandidate exRegistry "bob" "alice" JVal.null).2.body
       = some (JVal.str "bob")) :=
  ⟨rfl,
   c10_spoofable_position_id exRegistry "bob" "alice"
     [("id", JVal.str "alice")] (JVal.str "alice") JVal.null rfl⟩
